import Mathlib

set_option maxHeartbeats 1000000
set_option maxRecDepth 100000

/-!
Verification of the voosh-backend conversational core.

Shallow embedding of:
* `src/utils/truncate.js` (`truncateText`)
* `src/utils/promptBuilder.js` (`buildPrompt`)
* `src/routes/chat.js` (`dedupeHits`, `formatSources`, the POST handler)
* `src/services/sessionStore.js` (`createSession`, `appendMessage`,
  `getMessages`, `listSessions`, `normalizeCreateArgs`)

JS strings are modelled as `List Char` (JS character = Lean `Char`; the
sources only manipulate BMP text, where JS UTF-16 lengths coincide with
character counts).  Absent / `undefined` string fields are modelled as the
empty list, matching the sources' pervasive falsy checks (`h.url || ...`),
which treat `undefined`, `null` and `""` identically.
-/

abbrev JsString := List Char

/-- JS `String.prototype.trim()` (model: strip leading/trailing whitespace). -/
def jsTrim (s : JsString) : JsString :=
  ((s.dropWhile Char.isWhitespace).reverse.dropWhile Char.isWhitespace).reverse

/-- JS `Array.prototype.join(sep)`. -/
def jsJoin (sep : JsString) : List JsString → JsString
  | [] => []
  | [x] => x
  | x :: xs => x ++ sep ++ jsJoin sep xs

/-- JS `slice(-n)` on arrays/strings, and Redis `LTRIM key -n -1`:
keep the last `n` elements. -/
def takeLast (n : Nat) (l : List α) : List α := l.drop (l.length - n)

/-- JS `.replace(/\s+/g, " ").trim()`: collapse whitespace runs to single
spaces and strip the ends. -/
def collapseWs (s : JsString) : JsString :=
  jsJoin [' '] ((s.splitOnP Char.isWhitespace).filter (· ≠ []))

/-- `src/utils/truncate.js`:
`if (!text) return text; if (text.length <= maxLength) return text;
return text.slice(0, maxLength) + "…";` -/
def truncateText (text : JsString) (maxLength : Nat) : JsString :=
  if text = [] then text
  else if text.length ≤ maxLength then text
  else text.take maxLength ++ "…".data

/-- A retrieval hit `{score, text, title, url}` as consumed by the prompt
builder and the chat route (`score` is never read there and is omitted). -/
structure Hit where
  title : JsString
  text : JsString
  url : JsString
deriving DecidableEq, Repr

/-- A conversation message as consumed by `buildPrompt` (`{role, text}`). -/
structure ChatMsg where
  role : JsString
  text : JsString
deriving DecidableEq, Repr

/-- One formatted retrieved-passage block of `buildPrompt`. -/
def hitBlock (i : Nat) (h : Hit) : JsString :=
  let title := if h.title = [] then "source-".data ++ (toString (i + 1)).data else h.title
  let snippet := h.text.take 1000
  "### Source: ".data ++ title ++ "\n".data ++ snippet ++ "\nURL: ".data ++ h.url ++ "\n".data

/-- The `retrievals` string of `buildPrompt` (`hits.map(...).join("\n")`). -/
def retrievalsOf (hits : List Hit) : JsString :=
  jsJoin "\n".data (hits.enum.map fun p => hitBlock p.1 p.2)

/-- One formatted conversation line of `buildPrompt`. -/
def convoLine (m : ChatMsg) : JsString :=
  let role := if m.role = [] then "user".data else m.role
  role.map Char.toUpper ++ ": ".data ++ truncateText (collapseWs m.text) 800

/-- The `convo` string of `buildPrompt` (`recentMessages.slice(-8).map(...).join("\n")`). -/
def convoOf (msgs : List ChatMsg) : JsString :=
  jsJoin "\n".data ((takeLast 8 msgs).map convoLine)

/-- The default system preamble of `src/utils/promptBuilder.js`. -/
def DEFAULT_SYSTEM : JsString :=
  ("You are a helpful assistant. \nUse ONLY the information from the \"Retrieved Passages\" below to answer the user's question. \n- If the requested information is present in the sources, answer concisely from the sources and elaborate it if necessary. Write the source in a new line (For Ex: Source : article link). \n- If the information is not present, reply appropriately with appropriate disclaimers (\"based on the provided sources\", \"the sources do not mention\", etc.).\n- Do not invent facts or rely on prior knowledge outside the sources.").data

def hdrPassages : JsString := "--- Retrieved Passages ---".data
def hdrConversation : JsString := "--- Conversation ---".data
def hdrQuestion : JsString := "--- Question ---".data
def sep2 : JsString := "\n\n".data

/-- Input record of `buildPrompt` (the route leaves `system` at its default
and fixes `maxContextChars`). -/
structure PromptInput where
  system : JsString
  recentMessages : List ChatMsg
  hits : List Hit
  question : JsString
  maxContextChars : Nat

/-- `src/utils/promptBuilder.js` `buildPrompt`.  The truncation budget
`Math.max(0, maxContextChars - (full.length - retrievals.length))` is
computed over `Int` and clamped with `Int.toNat`, exactly as JS clamps a
possibly negative number with `Math.max(0, ·)`. -/
def buildPrompt (p : PromptInput) : JsString :=
  let retrievals := retrievalsOf p.hits
  let convo := convoOf p.recentMessages
  let promptParts : List JsString :=
    (if p.system ≠ [] then [p.system] else []) ++
    (if retrievals ≠ [] then [hdrPassages, retrievals] else []) ++
    (if convo ≠ [] then [hdrConversation, convo] else []) ++
    [hdrQuestion, jsTrim p.question]
  let full := jsJoin sep2 promptParts
  if p.maxContextChars < full.length then
    let budget : Nat :=
      ((p.maxContextChars : Int) - ((full.length : Int) - (retrievals.length : Int))).toNat
    let truncatedRetrievals := truncateText retrievals budget
    jsJoin sep2 [p.system, hdrPassages, truncatedRetrievals, hdrConversation, convo,
      hdrQuestion, p.question]
  else full

/-- The key `(h.url || h.title || "").trim()` used by `dedupeHits`. -/
def hitKey (h : Hit) : JsString :=
  jsTrim (if h.url ≠ [] then h.url else if h.title ≠ [] then h.title else [])

/-- Recursion of `src/routes/chat.js` `dedupeHits` with its `seen` set. -/
def dedupeGo (seen : List JsString) : List Hit → List Hit
  | [] => []
  | h :: hs =>
    let key := hitKey h
    if key = [] then dedupeGo seen hs
    else if key ∈ seen then dedupeGo seen hs
    else h :: dedupeGo (key :: seen) hs

/-- `src/routes/chat.js` `dedupeHits`. -/
def dedupeHits (hits : List Hit) : List Hit := dedupeGo [] hits

/-- A `{title, url}` source entry of the `done` event (`null` = `none`). -/
structure SourceRef where
  title : Option JsString
  url : Option JsString
deriving DecidableEq, Repr

/-- JS `x || null` on a string field. -/
def jsOrNull (s : JsString) : Option JsString := if s = [] then none else some s

/-- `src/routes/chat.js` `formatSources`. -/
def formatSources (hits : List Hit) (maxSources : Nat) : List SourceRef :=
  (hits.take maxSources).map fun h => ⟨jsOrNull h.title, jsOrNull h.url⟩

/-- The source identity named by the spec for deduplication: the URL,
falling back to the title; blank (whitespace-only) values count as absent.
This definition follows the spec's words and is compared against the code's
`hitKey`. -/
def sourceIdentity (h : Hit) : JsString :=
  if jsTrim h.url ≠ [] then jsTrim h.url else jsTrim h.title

/-! ### Session store (`src/services/sessionStore.js`)

The hot tier (Redis) and the durable tier (Postgres via Prisma) are modelled
as pure state.  Each operation takes an `Avail` record saying which tiers are
usable for that call: `redis = false` covers both an unconfigured client and
a client whose commands error (the code catches those errors and falls
through), likewise `prisma = false`.  `uuidv4()` is modelled by a fresh-name
counter `nextId`; `Date.now()` / `new Date()` by the `clock` counter, which
advances on every operation.  JSON and ISO-date round-trips through Redis and
Postgres are identities in this model. -/

/-- A stored message (`{id, role, text, ts}`); `ts` is the numeric instant. -/
structure StoredMsg where
  id : JsString
  role : JsString
  text : JsString
  ts : Nat
deriving DecidableEq, Repr

/-- A Prisma `Transcript` row. -/
structure DbRow where
  id : JsString
  sessionId : JsString
  role : JsString
  content : JsString
  createdAt : Nat
deriving DecidableEq, Repr

/-- A Prisma `Session` row (the schema used here has `id` and `createdAt`). -/
structure DbSession where
  id : JsString
  createdAt : Nat
deriving DecidableEq, Repr

/-- A Redis `session:meta:*` hash; fields are optional because `HINCRBY`
can create a hash holding only `msgCount`. -/
structure MetaH where
  mid : Option JsString
  mtitle : Option JsString
  mcreatedAt : Option Nat
  mupdatedAt : Option Nat
  msgCount : Option Int
deriving DecidableEq, Repr

/-- Point update of a keyed map. -/
def setFun (f : JsString → α) (k : JsString) (v : α) : JsString → α :=
  fun x => if x = k then v else f x

/-- Redis `ZADD` (replace the member's score). -/
def zadd (z : List (JsString × Nat)) (score : Nat) (member : JsString) :
    List (JsString × Nat) :=
  (member, score) :: z.filter (fun e => e.1 ≠ member)

/-- Stable insertion step for sorting zset entries by score descending. -/
def insertByScoreDesc (e : JsString × Nat) :
    List (JsString × Nat) → List (JsString × Nat)
  | [] => [e]
  | x :: xs => if x.2 ≤ e.2 then e :: x :: xs else x :: insertByScoreDesc e xs

/-- Scores descending (model of the zset's ordering). -/
def sortByScoreDesc : List (JsString × Nat) → List (JsString × Nat)
  | [] => []
  | e :: es => insertByScoreDesc e (sortByScoreDesc es)

/-- Redis `ZREVRANGE key 0 (limit-1)`: member ids by score descending. -/
def zrevrangeIds (z : List (JsString × Nat)) (limit : Nat) : List JsString :=
  ((sortByScoreDesc z).take limit).map (fun e => e.1)

/-- Stable insertion step for Prisma's `orderBy: { createdAt: 'asc' }`. -/
def insertByCreatedAt (r : DbRow) : List DbRow → List DbRow
  | [] => [r]
  | x :: xs =>
    if r.createdAt ≤ x.createdAt then r :: x :: xs else x :: insertByCreatedAt r xs

/-- Prisma `findMany({orderBy: {createdAt: 'asc'}})` over the row list in
insertion order, modelled as a stable sort on `createdAt`. -/
def dbOrderByCreatedAt : List DbRow → List DbRow
  | [] => []
  | r :: rs => insertByCreatedAt r (dbOrderByCreatedAt rs)

/-- Stable insertion step for `orderBy: { createdAt: 'desc' }` on sessions. -/
def insertByCreatedDesc (s : DbSession) : List DbSession → List DbSession
  | [] => [s]
  | x :: xs =>
    if x.createdAt ≤ s.createdAt then s :: x :: xs else x :: insertByCreatedDesc s xs

/-- Prisma `findMany({orderBy: {createdAt: 'desc'}})` on sessions. -/
def sortSessionsDesc : List DbSession → List DbSession
  | [] => []
  | s :: ss => insertByCreatedDesc s (sortSessionsDesc ss)

/-- Whole-store state: both tiers plus the fresh-id and clock counters. -/
structure StoreState where
  redisMsgs : JsString → List StoredMsg
  meta : JsString → Option MetaH
  zset : List (JsString × Nat)
  dbSessions : List DbSession
  db : List DbRow
  nextId : Nat
  clock : Nat

/-- Which tiers a given call can use. -/
structure Avail where
  redis : Bool
  prisma : Bool
deriving DecidableEq, Repr

/-- Fresh identifier, modelling `uuidv4()`. -/
def genId (n : Nat) : JsString := "uuid-".data ++ (toString n).data

/-- Empty store: nothing cached, nothing durable. -/
def initStore : StoreState :=
  { redisMsgs := fun _ => [], meta := fun _ => none, zset := [], dbSessions := [],
    db := [], nextId := 0, clock := 0 }

/-- The options object accepted by `createSession`. -/
structure CreateOpts where
  id : Option JsString
  createdAt : Option Nat
  title : Option JsString
deriving DecidableEq, Repr

def emptyOpts : CreateOpts := ⟨none, none, none⟩

/-- A JS argument to `createSession`: `null`, a string, or an options
object.  (Other value shapes behave like one of these under the `typeof`
tests of `normalizeCreateArgs`.) -/
inductive JsArg where
  | jsNull
  | jsStr (s : JsString)
  | jsObj (o : CreateOpts)
deriving DecidableEq, Repr

/-- JS truthiness of a `JsArg`. -/
def JsArg.truthy : JsArg → Bool
  | .jsNull => false
  | .jsStr s => s ≠ []
  | .jsObj _ => true

/-- `typeof arg === 'object' && arg !== null`. -/
def JsArg.isObjNonNull : JsArg → Bool
  | .jsObj _ => true
  | _ => false

/-- `typeof arg === 'string'`. -/
def JsArg.isString : JsArg → Bool
  | .jsStr _ => true
  | _ => false

/-- Property reads `opts.id` / `opts.createdAt` / `opts.title` on a value
(`undefined` on a non-object). -/
def JsArg.asOpts : JsArg → CreateOpts
  | .jsObj o => o
  | _ => emptyOpts

/-- `src/services/sessionStore.js` `normalizeCreateArgs(arg1, arg2)`.
Note `createSession`'s default `arg2 = {}` means a one-argument object call
reaches the last branch (an `{}` is truthy), not the first. -/
def normalizeCreateArgs (arg1 arg2 : JsArg) : Option JsString × CreateOpts :=
  if arg1.isObjNonNull && !arg2.truthy then (none, arg1.asOpts)
  else if arg1.isString then
    ((match arg1 with | .jsStr s => some s | _ => none),
     (if arg2.truthy then arg2 else .jsObj emptyOpts).asOpts)
  else (none, (if arg2.truthy then arg2 else .jsObj emptyOpts).asOpts)

/-- Prisma `session.upsert({where: {id}, update: {}, create: {id, createdAt}})`:
a no-op when the row exists. -/
def upsertSession (l : List DbSession) (sid : JsString) (createdAt : Nat) :
    List DbSession :=
  if l.any (fun r => r.id = sid) then l else l ++ [⟨sid, createdAt⟩]

/-- `sessionStore.createSession(arg1?, arg2?)`; returns the new state and the
session id.  `arg2 = none` models an absent second argument (JS default `{}`). -/
def createSession (st : StoreState) (av : Avail) (arg1 : JsArg) (arg2 : Option JsArg) :
    StoreState × JsString :=
  let norm := normalizeCreateArgs arg1 (arg2.getD (.jsObj emptyOpts))
  let sid := norm.1.getD (genId st.nextId)
  let st1 := if norm.1.isNone then { st with nextId := st.nextId + 1 } else st
  let createdAt := norm.2.createdAt.getD st1.clock
  let newMeta : MetaH :=
    { mid := some sid, mtitle := some (norm.2.title.getD []),
      mcreatedAt := some createdAt, mupdatedAt := some createdAt, msgCount := some 0 }
  if av.prisma then
    let st2 := { st1 with dbSessions := upsertSession st1.dbSessions sid createdAt }
    let st3 := if av.redis then
        { st2 with meta := setFun st2.meta sid (some newMeta),
                   zset := zadd st2.zset st2.clock sid }
      else st2
    ({ st3 with clock := st3.clock + 1 }, sid)
  else if av.redis then
    let st2 := { st1 with meta := setFun st1.meta sid (some newMeta),
                          zset := zadd st1.zset st1.clock sid }
    ({ st2 with clock := st2.clock + 1 }, sid)
  else
    ({ st1 with clock := st1.clock + 1 }, sid)

/-- The message argument of `appendMessage` (`{role, text, ts?}`, plus the
optional `id` the code also accepts); `role = []` models an absent/empty
role (both falsy), which defaults to `user`. -/
structure MsgIn where
  id : Option JsString
  role : JsString
  text : JsString
  ts : Option Nat
deriving DecidableEq, Repr

/-- The `{ sessionId, message }` value returned by `appendMessage`. -/
structure AppendRes where
  sessionId : JsString
  message : StoredMsg
deriving DecidableEq, Repr

def MAX_MESSAGES_REDIS : Nat := 500

/-- `HINCRBY meta msgCount 1` (creating the hash if absent) followed by
`HSET meta updatedAt now`. -/
def bumpMeta (mo : Option MetaH) (now : Nat) : MetaH :=
  let base := mo.getD ⟨none, none, none, none, none⟩
  { base with msgCount := some (base.msgCount.getD 0 + 1), mupdatedAt := some now }

/-- `sessionStore.appendMessage(sessionId, message)`: durable write first
(best effort), then `RPUSH` + `LTRIM` + meta/recency updates (best effort),
always returning `{ sessionId, message }`. -/
def appendMessage (st : StoreState) (av : Avail) (sid : JsString) (m : MsgIn) :
    StoreState × AppendRes :=
  let msg : StoredMsg :=
    { id := m.id.getD (genId st.nextId)
      role := if m.role = [] then "user".data else m.role
      text := m.text
      ts := m.ts.getD st.clock }
  let st1 := if m.id.isNone then { st with nextId := st.nextId + 1 } else st
  let st2 := if av.prisma then
      { st1 with db := st1.db ++
          [{ id := msg.id, sessionId := sid, role := msg.role, content := msg.text,
             createdAt := msg.ts }] }
    else st1
  let st3 := if av.redis then
      { st2 with
        redisMsgs := setFun st2.redisMsgs sid
          (takeLast MAX_MESSAGES_REDIS (st2.redisMsgs sid ++ [msg]))
        meta := setFun st2.meta sid (some (bumpMeta (st2.meta sid) st2.clock))
        zset := zadd st2.zset st2.clock sid }
    else st2
  ({ st3 with clock := st3.clock + 1 }, { sessionId := sid, message := msg })

/-- `sessionStore.getMessages(sessionId, limit)`: Redis list if the key
exists, else Prisma rows ordered by `createdAt` (repopulating Redis as a
side effect), else `[]`.  In both tiers a non-zero `limit` keeps the last
`limit` entries; `limit = 0` is falsy in JS and disables the bound. -/
def getMessages (st : StoreState) (av : Avail) (sid : JsString) (limit : Nat) :
    StoreState × List StoredMsg :=
  if av.redis ∧ st.redisMsgs sid ≠ [] then
    let items := st.redisMsgs sid
    let items := if limit ≠ 0 ∧ limit < items.length then takeLast limit items else items
    ({ st with zset := zadd st.zset st.clock sid, clock := st.clock + 1 }, items)
  else if av.prisma then
    let rows := dbOrderByCreatedAt (st.db.filter (fun r => r.sessionId = sid))
    let docs := rows.map fun r =>
      ({ id := r.id, role := r.role, text := r.content, ts := r.createdAt } : StoredMsg)
    let st1 := if av.redis ∧ docs ≠ [] then
        { st with
          redisMsgs := setFun st.redisMsgs sid docs
          meta := setFun st.meta sid (some
            { mid := some sid, mtitle := some [],
              mcreatedAt := some (((docs.head?).map (fun d => d.ts)).getD st.clock),
              mupdatedAt := some (((docs.getLast?).map (fun d => d.ts)).getD st.clock),
              msgCount := some (docs.length : Int) })
          zset := zadd st.zset st.clock sid
          clock := st.clock + 1 }
      else { st with clock := st.clock + 1 }
    (st1, if limit ≠ 0 ∧ limit < docs.length then takeLast limit docs else docs)
  else ({ st with clock := st.clock + 1 }, [])

/-- A session summary as returned by `listSessions`. -/
structure SessionSummary where
  sid : Option JsString
  stitle : Option JsString
  screatedAt : Option Nat
  supdatedAt : Option Nat
  smsgCount : Int
deriving DecidableEq, Repr

/-- JS `x || null` on an optional string field read from a Redis hash. -/
def orNullOpt (o : Option JsString) : Option JsString :=
  match o with
  | some s => if s = [] then none else some s
  | none => none

/-- `sessionStore.listSessions(limit)`: recency zset first (when it yields
ids), else Prisma sessions by `createdAt` descending with transcript counts
(repopulating the hot tier as a side effect), else `[]`. -/
def listSessions (st : StoreState) (av : Avail) (limit : Nat) :
    StoreState × List SessionSummary :=
  if av.redis ∧ zrevrangeIds st.zset limit ≠ [] then
    let ids := zrevrangeIds st.zset limit
    let metas := ids.map fun i =>
      match st.meta i with
      | some m =>
          ({ sid := m.mid, stitle := orNullOpt m.mtitle, screatedAt := m.mcreatedAt,
             supdatedAt := m.mupdatedAt, smsgCount := m.msgCount.getD 0 } : SessionSummary)
      | none =>
          ({ sid := none, stitle := none, screatedAt := none, supdatedAt := none,
             smsgCount := 0 } : SessionSummary)
    ({ st with clock := st.clock + 1 }, metas)
  else if av.prisma then
    let sessions := (sortSessionsDesc st.dbSessions).take limit
    let countOf := fun (i : JsString) => (st.db.filter (fun r => r.sessionId = i)).length
    let st1 := if av.redis then
        { st with
          meta := sessions.foldl (fun f s => setFun f s.id (some
            { mid := some s.id, mtitle := some [], mcreatedAt := some s.createdAt,
              mupdatedAt := some s.createdAt, msgCount := some (countOf s.id : Int) })) st.meta
          zset := sessions.foldl (fun z s => zadd z s.createdAt s.id) st.zset
          clock := st.clock + 1 }
      else { st with clock := st.clock + 1 }
    (st1, sessions.map fun s =>
      { sid := some s.id, stitle := none, screatedAt := some s.createdAt,
        supdatedAt := some s.createdAt, smsgCount := (countOf s.id : Int) })
  else ({ st with clock := st.clock + 1 }, [])

/-! ### Streaming chat route (`src/routes/chat.js`, `router.post`)

The SSE stream is modelled as the list of emitted events; the generation
gateway (`llmClient.generateStream`) is modelled by its observable behaviour
on one call: the chunks it passes to `onChunk` (in order) and whether it then
resolves (`genOk = true`) or raises.  `vectorClient.search` is an `Except`
(it can reject).  Store calls never throw (see the store model), so the outer
catch of the handler fires before headers are sent only for a search failure,
producing a 500 JSON response; a generation failure after streaming started
produces an `error` event. -/

/-- `req.body.message` as received: absent, a non-string value, or a string. -/
inductive BodyMessage where
  | missing
  | nonString (truthy : Bool)
  | strVal (s : JsString)
deriving DecidableEq, Repr

/-- The guard `!(!message || typeof message !== "string")`. -/
def BodyMessage.valid : BodyMessage → Bool
  | .strVal s => s ≠ []
  | _ => false

/-- A chat request body; `sessionId = []` models an absent (or empty, both
falsy) incoming session id. -/
structure ChatReq where
  sessionId : JsString
  message : BodyMessage
deriving DecidableEq, Repr

/-- Server-sent events emitted by the handler. -/
inductive SseEvent where
  | sessionEv (sid : JsString)
  | messageEv (delta : JsString)
  | doneEv (sid : JsString) (answer : JsString) (sources : List SourceRef)
  | errorEv (msg : JsString)
deriving DecidableEq, Repr

/-- `done` and `error` are the terminal events of the protocol. -/
def SseEvent.isTerminal : SseEvent → Bool
  | .doneEv _ _ _ => true
  | .errorEv _ => true
  | _ => false

/-- External behaviour visible to one request: tier availability, the
retrieval outcome, and the generation gateway's behaviour. -/
structure ChatEnv where
  av : Avail
  searchOutcome : Except JsString (List Hit)
  genChunks : List JsString
  genOk : Bool
  genErr : JsString
  maxSources : Nat
  maxContextChars : Nat

/-- Observable outcome of one POST /chat request. -/
structure ChatResult where
  clientError : Bool
  serverError : Bool
  sessionCreated : Bool
  searchCalled : Bool
  events : List SseEvent
  appendCalls : List (JsString × StoredMsg)
  finalStore : StoreState

/-- The 400 rejection (`message (string) is required`): no side effects. -/
def rejectRes (st : StoreState) : ChatResult :=
  { clientError := true, serverError := false, sessionCreated := false,
    searchCalled := false, events := [], appendCalls := [], finalStore := st }

/-- Body of the handler once the message has been validated.  The route
passes `ts: Date.now()` on both appends; in this model `Date.now()` is the
store clock at the moment of the call. -/
def runChat (st : StoreState) (env : ChatEnv) (incomingSid : JsString)
    (message : JsString) : ChatResult :=
  let resolved :=
    if incomingSid = [] then
      let c := createSession st env.av
        (.jsObj { id := none, createdAt := none, title := some "New chat".data }) none
      (c.1, c.2, true)
    else (st, incomingSid, false)
  let st1 := resolved.1
  let sid := resolved.2.1
  let created := resolved.2.2
  let ua := appendMessage st1 env.av sid
    { id := none, role := "user".data, text := message, ts := some st1.clock }
  let st2 := ua.1
  match env.searchOutcome with
  | .error _ =>
      { clientError := false, serverError := true, sessionCreated := created,
        searchCalled := true, events := [], appendCalls := [(sid, ua.2.message)],
        finalStore := st2 }
  | .ok rawHits =>
      let hits := dedupeHits rawHits
      let sources := formatSources hits env.maxSources
      let g := getMessages st2 env.av sid 8
      let st3 := g.1
      let recent := g.2
      let _prompt := buildPrompt
        { system := DEFAULT_SYSTEM,
          recentMessages := recent.map (fun m => { role := m.role, text := m.text }),
          hits := hits, question := message, maxContextChars := env.maxContextChars }
      let answer := env.genChunks.flatten
      if env.genOk then
        let aa := appendMessage st3 env.av sid
          { id := none, role := "assistant".data, text := answer, ts := some st3.clock }
        { clientError := false, serverError := false, sessionCreated := created,
          searchCalled := true,
          events := SseEvent.sessionEv sid :: env.genChunks.map SseEvent.messageEv
            ++ [SseEvent.doneEv sid answer sources],
          appendCalls := [(sid, ua.2.message), (sid, aa.2.message)],
          finalStore := aa.1 }
      else
        { clientError := false, serverError := false, sessionCreated := created,
          searchCalled := true,
          events := SseEvent.sessionEv sid :: env.genChunks.map SseEvent.messageEv
            ++ [SseEvent.errorEv env.genErr],
          appendCalls := [(sid, ua.2.message)],
          finalStore := st3 }

/-- `src/routes/chat.js` `router.post("/")`. -/
def chatPost (st : StoreState) (env : ChatEnv) (req : ChatReq) : ChatResult :=
  match req.message with
  | .strVal s => if s = [] then rejectRes st else runChat st env req.sessionId s
  | _ => rejectRes st

/-! ### Append scripts (for the store ordering claims)

A single sequential caller issuing `appendMessage` calls for one session,
each call seeing whatever tier availability holds at that moment. -/

/-- One `appendMessage` call of a script. -/
structure AppendCall where
  av : Avail
  msg : MsgIn
deriving DecidableEq, Repr

/-- Run a sequence of `appendMessage` calls for session `sid`, returning the
final state and the appended messages in call order (as returned by each
call). -/
def runAppends (st : StoreState) (sid : JsString) : List AppendCall → StoreState × List StoredMsg
  | [] => (st, [])
  | c :: cs =>
    let p := appendMessage st c.av sid c.msg
    let q := runAppends p.1 sid cs
    (q.1, p.2.message :: q.2)

/-! ### Concrete inputs used by counterexamples and witnesses -/

/-- Build a `DbRow` from a stored message (the shape `appendMessage` writes). -/
def rowOf (sid : JsString) (m : StoredMsg) : DbRow :=
  { id := m.id, sessionId := sid, role := m.role, content := m.text, createdAt := m.ts }

/-- Prompt input that triggers truncation: budget 16 remains for the
passages, so the truncated assembly has length `maxContextChars + 1`. -/
def c1ex : PromptInput :=
  { system := "S".data,
    recentMessages := [{ role := "user".data, text := "hi".data }],
    hits := [{ title := "T".data, text := List.replicate 40 'a', url := "u".data }],
    question := "Q".data, maxContextChars := 100 }

/-- Empty passages and history with a budget smaller than preamble+question. -/
def c7ex : PromptInput :=
  { system := "S".data, recentMessages := [], hits := [], question := "Q".data,
    maxContextChars := 1 }

/-- Empty passages and history, fitting within the budget. -/
def c7wex : PromptInput :=
  { system := "S".data, recentMessages := [], hits := [], question := " Q ".data,
    maxContextChars := 100 }

def c3sid : JsString := "s".data
def c3av : Avail := { redis := false, prisma := true }

/-- Two appends with explicitly supplied, decreasing timestamps. -/
def c3calls : List AppendCall :=
  [ { av := c3av, msg := { id := none, role := [], text := "a".data, ts := some 100 } },
    { av := c3av, msg := { id := none, role := [], text := "b".data, ts := some 50 } } ]

/-- One append with a defaulted timestamp. -/
def c3one : List AppendCall :=
  [ { av := c3av, msg := { id := none, role := [], text := "a".data, ts := none } } ]

/-- Two appends with defaulted (hence non-decreasing) timestamps, both tiers up. -/
def c3wcalls : List AppendCall :=
  [ { av := { redis := true, prisma := true },
      msg := { id := none, role := [], text := "x".data, ts := none } },
    { av := { redis := true, prisma := true },
      msg := { id := none, role := [], text := "y".data, ts := none } } ]

def hitsC2 : List Hit :=
  [ { title := "Fact A".data, text := "The sun rises in the east.".data,
      url := "http://a".data } ]

def envC2 : ChatEnv :=
  { av := { redis := true, prisma := true }, searchOutcome := .ok hitsC2,
    genChunks := ["The sun ".data, "rises in the east.".data], genOk := true,
    genErr := [], maxSources := 6, maxContextChars := 5000 }

def reqC2 : ChatReq :=
  { sessionId := "s1".data, message := .strVal "Where does the sun rise?".data }

def envC4 : ChatEnv :=
  { av := { redis := true, prisma := true }, searchOutcome := .ok hitsC2,
    genChunks := ["The sun ".data], genOk := false, genErr := "provider down".data,
    maxSources := 6, maxContextChars := 5000 }

def reqC4 : ChatReq :=
  { sessionId := "s2".data, message := .strVal "Where does the sun rise?".data }

def reqC8 : ChatReq := { sessionId := "s3".data, message := .missing }

/-- The options object POST /sessions passes as the single argument. -/
def optsC10 : CreateOpts :=
  { id := some "route-chosen-id".data, createdAt := some 5,
    title := some "Chat now".data }

/-! ### Helper lemmas -/

theorem hdrPassages_length : hdrPassages.length = 26 := rfl

theorem hdrConversation_length : hdrConversation.length = 20 := rfl

theorem hdrQuestion_length : hdrQuestion.length = 16 := rfl

theorem sep2_length : sep2.length = 2 := rfl

/-- `truncateText` never exceeds its cap by more than the one-character
truncation marker. -/
theorem truncateText_length_le (t : JsString) (n : Nat) :
    (truncateText t n).length ≤ n + 1 := by
  unfold truncateText
  split_ifs with h1 h2
  · simp [h1]
  · omega
  · have h3 : ("…".data).length = 1 := rfl
    simp [List.length_append, List.length_take, h3]

/-! ### C9: truncateText behaviour -/

/-- C9: for non-empty `s` with `s.length > maxLength`, `truncateText`
returns the first `maxLength` characters followed by an ellipsis character,
so the result has length `maxLength + 1` (one over the stated cap); shorter
or empty inputs are returned unchanged. -/
theorem truncateText_exceeds_cap_by_one (s : JsString) (n : Nat) :
    (s ≠ [] → n < s.length →
      truncateText s n = s.take n ++ "…".data ∧ (truncateText s n).length = n + 1)
    ∧ (s.length ≤ n → truncateText s n = s)
    ∧ (s = [] → truncateText s n = s) := by
  refine ⟨fun hne hlt => ?_, fun hle => ?_, fun he => ?_⟩
  · unfold truncateText
    rw [if_neg hne, if_neg (by omega)]
    refine ⟨rfl, ?_⟩
    have h3 : ("…".data).length = 1 := rfl
    simp [List.length_append, List.length_take, h3]
    omega
  · unfold truncateText
    split_ifs with h1
    · rw [h1]
    · rfl
  · unfold truncateText
    rw [if_pos he]

/-- Witness for C9 at a concrete input. -/
theorem truncateText_exceeds_cap_by_one_witness :
    truncateText "abc".data 2 = "abc".data.take 2 ++ "…".data
    ∧ (truncateText "abc".data 2).length = 3 :=
  (truncateText_exceeds_cap_by_one "abc".data 2).1 (by decide) (by decide)

/-! ### C6: deduplication of retrieved hits -/

theorem dedupeGo_sublist (seen : List JsString) (hs : List Hit) :
    (dedupeGo seen hs).Sublist hs := by
  induction hs generalizing seen with
  | nil => simp [dedupeGo]
  | cons h t ih =>
    simp only [dedupeGo]
    split_ifs with h1 h2
    · exact (ih seen).trans (List.sublist_cons_self h t)
    · exact (ih seen).trans (List.sublist_cons_self h t)
    · exact (ih (hitKey h :: seen)).cons₂ h

theorem dedupeGo_keys (seen : List JsString) (hs : List Hit) :
    ∀ h ∈ dedupeGo seen hs, hitKey h ≠ [] ∧ hitKey h ∉ seen := by
  induction hs generalizing seen with
  | nil => simp [dedupeGo]
  | cons h t ih =>
    simp only [dedupeGo]
    split_ifs with h1 h2
    · exact ih seen
    · exact ih seen
    · intro x hx
      rcases List.mem_cons.mp hx with rfl | hx'
      · exact ⟨h1, h2⟩
      · have := ih (hitKey h :: seen) x hx'
        exact ⟨this.1, fun hin => this.2 (List.mem_cons_of_mem _ hin)⟩

theorem dedupeGo_pairwise (seen : List JsString) (hs : List Hit) :
    (dedupeGo seen hs).Pairwise (fun a b => hitKey a ≠ hitKey b) := by
  induction hs generalizing seen with
  | nil => simp [dedupeGo]
  | cons h t ih =>
    simp only [dedupeGo]
    split_ifs with h1 h2
    · exact ih seen
    · exact ih seen
    · refine List.Pairwise.cons ?_ (ih (hitKey h :: seen))
      intro b hb
      have := dedupeGo_keys (hitKey h :: seen) t b hb
      exact fun he => this.2 (he ▸ List.mem_cons_self _ _)

/-- For a hit whose code-level key is non-blank, the code's key coincides
with the spec's source identity (URL falling back to title). -/
theorem hitKey_eq_sourceIdentity (h : Hit) (hne : hitKey h ≠ []) :
    sourceIdentity h = hitKey h := by
  unfold hitKey at *
  unfold sourceIdentity
  by_cases hu : h.url = []
  · have h0 : jsTrim ([] : JsString) = [] := rfl
    simp only [hu, ne_eq, not_true_eq_false, if_false, h0] at *
    by_cases ht : h.title = []
    · simp [ht, h0]
    · simp [ht]
  · simp only [hu, ne_eq, not_false_eq_true, if_true] at *
    simp [hne]

/-- C6: `dedupeHits` returns an order-preserving subsequence of its input,
keeps at most one hit per source identity (URL, falling back to title), and
every surviving hit has a non-blank URL or title. -/
theorem dedupeHits_dedupes_by_source_identity (hits : List Hit) :
    (dedupeHits hits).Sublist hits
    ∧ (dedupeHits hits).Pairwise (fun a b => sourceIdentity a ≠ sourceIdentity b)
    ∧ ∀ h ∈ dedupeHits hits, ¬(jsTrim h.url = [] ∧ jsTrim h.title = []) := by
  refine ⟨dedupeGo_sublist [] hits, ?_, ?_⟩
  · refine (dedupeGo_pairwise [] hits).imp_of_mem ?_
    intro a b ha hb hab
    rw [hitKey_eq_sourceIdentity a (dedupeGo_keys [] hits a ha).1,
        hitKey_eq_sourceIdentity b (dedupeGo_keys [] hits b hb).1]
    exact hab
  · intro h hh hand
    have hk := (dedupeGo_keys [] hits h hh).1
    have hid := hitKey_eq_sourceIdentity h hk
    unfold sourceIdentity at hid
    rw [hand.1, hand.2] at hid
    simp at hid
    exact hk (by rw [← hid])

/-! ### C10: createSession with a single object argument ignores a supplied id -/

/-- C10: calling `createSession` with one object argument (second argument
absent, so it defaults to the truthy `{}`) discards any `id` field of that
object: a fresh identifier is generated and returned, and any durable row is
created under the generated id, not the caller-chosen one. -/
theorem createSession_object_arg_ignores_id (st : StoreState) (av : Avail)
    (o : CreateOpts) (j : JsString) (hj : o.id = some j)
    (hne : j ≠ genId st.nextId) :
    (createSession st av (.jsObj o) none).2 = genId st.nextId
    ∧ (createSession st av (.jsObj o) none).2 ≠ j
    ∧ (createSession st av (.jsObj o) none).1.dbSessions
        = (if av.prisma then upsertSession st.dbSessions (genId st.nextId) st.clock
           else st.dbSessions) := by
  have hn : normalizeCreateArgs (.jsObj o) (.jsObj emptyOpts) = (none, emptyOpts) := rfl
  unfold createSession
  simp only [Option.getD, hn]
  refine ⟨?_, ?_, ?_⟩
  · cases hp : av.prisma <;> cases hr : av.redis <;> simp [hp, hr]
  · cases hp : av.prisma <;> cases hr : av.redis <;> simp [hp, hr] <;>
      exact fun he => hne he.symm
  · cases hp : av.prisma <;> cases hr : av.redis <;> simp [hp, hr, emptyOpts]

/-- Witness for C10: the exact object shape POST /sessions passes. -/
theorem createSession_object_arg_ignores_id_witness :
    (createSession initStore { redis := true, prisma := true } (.jsObj optsC10) none).2
      = genId initStore.nextId
    ∧ (createSession initStore { redis := true, prisma := true } (.jsObj optsC10) none).2
      ≠ "route-chosen-id".data
    ∧ (createSession initStore { redis := true, prisma := true } (.jsObj optsC10) none).1.dbSessions
      = (if ({ redis := true, prisma := true } : Avail).prisma then
           upsertSession initStore.dbSessions (genId initStore.nextId) initStore.clock
         else initStore.dbSessions) :=
  createSession_object_arg_ignores_id initStore { redis := true, prisma := true }
    optsC10 "route-chosen-id".data rfl (by decide)

/-! ### C5: behaviour when neither tier is usable -/

/-- C5: with both tiers unusable, `appendMessage` still returns the echoed
message with a generated id and a defaulted timestamp (persisting nothing),
`createSession` still returns a generated id (persisting nothing),
`getMessages` and `listSessions` return empty sequences; all four operations
are total functions here — storage unavailability never raises. -/
theorem store_total_unavailability (st : StoreState) (sid : JsString) (m : MsgIn)
    (arg1 : JsArg) (arg2 : Option JsArg) (limit limit2 : Nat)
    (hid : m.id = none) (hts : m.ts = none)
    (hnorm : (normalizeCreateArgs arg1 (arg2.getD (.jsObj emptyOpts))).1 = none) :
    (appendMessage st { redis := false, prisma := false } sid m).2
      = { sessionId := sid,
          message := { id := genId st.nextId,
                       role := if m.role = [] then "user".data else m.role,
                       text := m.text, ts := st.clock } }
    ∧ (appendMessage st { redis := false, prisma := false } sid m).1.db = st.db
    ∧ (appendMessage st { redis := false, prisma := false } sid m).1.redisMsgs
        = st.redisMsgs
    ∧ (createSession st { redis := false, prisma := false } arg1 arg2).2
        = genId st.nextId
    ∧ (createSession st { redis := false, prisma := false } arg1 arg2).1.dbSessions
        = st.dbSessions
    ∧ (createSession st { redis := false, prisma := false } arg1 arg2).1.meta = st.meta
    ∧ (getMessages st { redis := false, prisma := false } sid limit).2 = []
    ∧ (listSessions st { redis := false, prisma := false } limit2).2 = [] := by
  refine ⟨?_, ?_, ?_, ?_, ?_, ?_, ?_, ?_⟩
  · simp [appendMessage, hid, hts]
  · simp [appendMessage, hid, hts]
  · simp [appendMessage, hid, hts]
  · simp [createSession, hnorm]
  · simp [createSession, hnorm]
  · simp [createSession, hnorm]
  · simp [getMessages]
  · simp [listSessions]

/-- Witness for C5 at concrete inputs. -/
theorem store_total_unavailability_witness :
    (appendMessage initStore { redis := false, prisma := false } "s".data
        { id := none, role := [], text := "hello".data, ts := none }).2
      = { sessionId := "s".data,
          message := { id := genId 0, role := "user".data, text := "hello".data, ts := 0 } }
    ∧ (appendMessage initStore { redis := false, prisma := false } "s".data
        { id := none, role := [], text := "hello".data, ts := none }).1.db = initStore.db
    ∧ (appendMessage initStore { redis := false, prisma := false } "s".data
        { id := none, role := [], text := "hello".data, ts := none }).1.redisMsgs
      = initStore.redisMsgs
    ∧ (createSession initStore { redis := false, prisma := false } (.jsObj emptyOpts) none).2
      = genId 0
    ∧ (createSession initStore { redis := false, prisma := false } (.jsObj emptyOpts) none).1.dbSessions
      = initStore.dbSessions
    ∧ (createSession initStore { redis := false, prisma := false } (.jsObj emptyOpts) none).1.meta
      = initStore.meta
    ∧ (getMessages initStore { redis := false, prisma := false } "s".data 5).2 = []
    ∧ (listSessions initStore { redis := false, prisma := false } 3).2 = [] := by
  simpa using store_total_unavailability initStore "s".data
    { id := none, role := [], text := "hello".data, ts := none }
    (.jsObj emptyOpts) none 5 3 rfl rfl rfl

/-! ### C8: invalid chat requests are rejected before any side effect -/

/-- C8: when the request's `message` is absent, empty, or not a string, the
handler responds with a client error (400) before doing anything: no events,
no append calls, no retrieval, no session creation, and the store is
untouched. -/
theorem chat_invalid_request_no_side_effects (st : StoreState) (env : ChatEnv)
    (req : ChatReq) (hv : req.message.valid = false) :
    (chatPost st env req).clientError = true
    ∧ (chatPost st env req).events = []
    ∧ (chatPost st env req).appendCalls = []
    ∧ (chatPost st env req).searchCalled = false
    ∧ (chatPost st env req).sessionCreated = false
    ∧ (chatPost st env req).finalStore = st := by
  cases hm : req.message with
  | strVal s =>
    have hs : s = [] := by
      rw [hm] at hv
      simpa [BodyMessage.valid] using hv
    simp [chatPost, hm, hs, rejectRes]
  | missing => simp [chatPost, hm, rejectRes]
  | nonString t => simp [chatPost, hm, rejectRes]

/-- Witness for C8 at a concrete request with a missing `message`. -/
theorem chat_invalid_request_no_side_effects_witness :
    (chatPost initStore envC2 reqC8).clientError = true
    ∧ (chatPost initStore envC2 reqC8).events = []
    ∧ (chatPost initStore envC2 reqC8).appendCalls = []
    ∧ (chatPost initStore envC2 reqC8).searchCalled = false
    ∧ (chatPost initStore envC2 reqC8).sessionCreated = false
    ∧ (chatPost initStore envC2 reqC8).finalStore = initStore :=
  chat_invalid_request_no_side_effects initStore envC2 reqC8 rfl

/-! ### C2: shape of the emitted event stream -/

/-- C2: every request that reaches streaming (valid message, successful
retrieval) emits exactly one `session` event first, then one `message` event
per generated chunk in production order, then exactly one terminal event —
`done` with the accumulated answer and the source list, or `error` — and
nothing after it. -/
theorem chat_stream_event_protocol (st : StoreState) (env : ChatEnv) (req : ChatReq)
    (s : JsString) (hits : List Hit)
    (hm : req.message = .strVal s) (hs : s ≠ [])
    (hsr : env.searchOutcome = .ok hits) :
    ∃ sid terminal,
      (chatPost st env req).events
        = SseEvent.sessionEv sid :: env.genChunks.map SseEvent.messageEv ++ [terminal]
      ∧ terminal.isTerminal = true
      ∧ (terminal = SseEvent.doneEv sid env.genChunks.flatten
            (formatSources (dedupeHits hits) env.maxSources)
         ∨ terminal = SseEvent.errorEv env.genErr)
      ∧ (SseEvent.sessionEv sid).isTerminal = false
      ∧ ∀ d, (SseEvent.messageEv d).isTerminal = false := by
  simp only [chatPost, hm, if_neg hs]
  unfold runChat
  rw [hsr]
  cases hgen : env.genOk
  · exact ⟨_, _, rfl, rfl, Or.inr rfl, rfl, fun d => rfl⟩
  · exact ⟨_, _, rfl, rfl, Or.inl rfl, rfl, fun d => rfl⟩

/-- Witness for C2 at a concrete successful request. -/
theorem chat_stream_event_protocol_witness :
    ∃ sid terminal,
      (chatPost initStore envC2 reqC2).events
        = SseEvent.sessionEv sid :: envC2.genChunks.map SseEvent.messageEv ++ [terminal]
      ∧ terminal.isTerminal = true
      ∧ (terminal = SseEvent.doneEv sid envC2.genChunks.flatten
            (formatSources (dedupeHits hitsC2) envC2.maxSources)
         ∨ terminal = SseEvent.errorEv envC2.genErr)
      ∧ (SseEvent.sessionEv sid).isTerminal = false
      ∧ ∀ d, (SseEvent.messageEv d).isTerminal = false :=
  chat_stream_event_protocol initStore envC2 reqC2 "Where does the sun rise?".data
    hitsC2 rfl (by decide) rfl

/-! ### C4: generation failure emits an error and persists nothing -/

/-- C4: when generation raises (before or after producing chunks), the
stream ends with an `error` event and the only store append of the request
is the user message — the partially accumulated answer is never appended. -/
theorem chat_generation_failure_not_persisted (st : StoreState) (env : ChatEnv)
    (req : ChatReq) (s : JsString) (hits : List Hit)
    (hm : req.message = .strVal s) (hs : s ≠ [])
    (hsr : env.searchOutcome = .ok hits) (hfail : env.genOk = false) :
    ∃ sid um,
      (chatPost st env req).appendCalls = [(sid, um)]
      ∧ um.role = "user".data ∧ um.text = s
      ∧ (chatPost st env req).events
          = SseEvent.sessionEv sid :: env.genChunks.map SseEvent.messageEv
            ++ [SseEvent.errorEv env.genErr] := by
  simp only [chatPost, hm, if_neg hs]
  unfold runChat
  rw [hsr, hfail]
  exact ⟨_, _, rfl, rfl, rfl, rfl⟩

/-- Witness for C4: one chunk was already produced, then the provider fails. -/
theorem chat_generation_failure_not_persisted_witness :
    ∃ sid um,
      (chatPost initStore envC4 reqC4).appendCalls = [(sid, um)]
      ∧ um.role = "user".data ∧ um.text = "Where does the sun rise?".data
      ∧ (chatPost initStore envC4 reqC4).events
          = SseEvent.sessionEv sid :: envC4.genChunks.map SseEvent.messageEv
            ++ [SseEvent.errorEv envC4.genErr] :=
  chat_generation_failure_not_persisted initStore envC4 reqC4
    "Where does the sun rise?".data hitsC2 rfl (by decide) rfl rfl

/-! ### C1 / C7: buildPrompt assembly and truncation -/

theorem jsJoin7_eq (a b c d e f g : JsString) :
    jsJoin sep2 [a, b, c, d, e, f, g]
      = a ++ sep2 ++ b ++ sep2 ++ c ++ sep2 ++ d ++ sep2 ++ e ++ sep2 ++ f ++ sep2 ++ g := by
  simp [jsJoin, List.append_assoc]

theorem jsJoin7_length (a b c d e f g : JsString) :
    (jsJoin sep2 [a, b, c, d, e, f, g]).length
      = a.length + b.length + c.length + d.length + e.length + f.length + g.length + 12 := by
  simp [jsJoin, List.length_append, sep2_length]
  omega

theorem jsJoin3_eq (a b c : JsString) :
    jsJoin sep2 [a, b, c] = a ++ sep2 ++ b ++ sep2 ++ c := by
  simp [jsJoin, List.append_assoc]

theorem jsJoin3_length (a b c : JsString) :
    (jsJoin sep2 [a, b, c]).length = a.length + b.length + c.length + 4 := by
  simp [jsJoin, List.length_append, sep2_length]
  omega

/-- C1 (amended): when all sections are present and the question is already
trimmed, the output is the fixed assembly with only the passages block
replaced by its truncation, and its length is bounded by
`max maxContextChars L + 1`, where `L` is the length of everything except
the passages block — not by `maxContextChars` itself: the appended
truncation marker makes the truncated assembly one character too long, and
a budget too small for the non-passage parts cannot be met at all. -/
theorem buildPrompt_truncates_only_passages (p : PromptInput)
    (hsys : p.system ≠ []) (hr : retrievalsOf p.hits ≠ [])
    (hc : convoOf p.recentMessages ≠ []) (hq : jsTrim p.question = p.question) :
    (∃ t, buildPrompt p
        = p.system ++ sep2 ++ hdrPassages ++ sep2 ++ t ++ sep2 ++ hdrConversation
          ++ sep2 ++ convoOf p.recentMessages ++ sep2 ++ hdrQuestion ++ sep2 ++ p.question)
    ∧ (buildPrompt p).length
        ≤ max p.maxContextChars
            (p.system.length + (convoOf p.recentMessages).length + p.question.length + 74)
          + 1 := by
  have hparts : (if p.system ≠ [] then [p.system] else []) ++
      (if retrievalsOf p.hits ≠ [] then [hdrPassages, retrievalsOf p.hits] else []) ++
      (if convoOf p.recentMessages ≠ []
        then [hdrConversation, convoOf p.recentMessages] else []) ++
      [hdrQuestion, jsTrim p.question]
      = [p.system, hdrPassages, retrievalsOf p.hits, hdrConversation,
         convoOf p.recentMessages, hdrQuestion, p.question] := by
    rw [if_pos hsys, if_pos hr, if_pos hc, hq]
    rfl
  simp only [buildPrompt, hparts]
  by_cases hov : p.maxContextChars
      < (jsJoin sep2 [p.system, hdrPassages, retrievalsOf p.hits, hdrConversation,
          convoOf p.recentMessages, hdrQuestion, p.question]).length
  · rw [if_pos hov]
    rw [jsJoin7_length] at hov
    constructor
    · exact ⟨_, jsJoin7_eq _ _ _ _ _ _ _⟩
    · rw [jsJoin7_length, jsJoin7_length]
      have hb := truncateText_length_le (retrievalsOf p.hits)
        (((p.maxContextChars : Int) -
          (((p.system.length + hdrPassages.length + (retrievalsOf p.hits).length
            + hdrConversation.length + (convoOf p.recentMessages).length
            + hdrQuestion.length + p.question.length + 12 : Nat) : Int)
            - ((retrievalsOf p.hits).length : Int))).toNat)
      rw [hdrPassages_length, hdrConversation_length, hdrQuestion_length] at *
      omega
  · rw [if_neg hov]
    rw [jsJoin7_length] at hov
    constructor
    · exact ⟨_, jsJoin7_eq _ _ _ _ _ _ _⟩
    · rw [jsJoin7_length]
      rw [hdrPassages_length, hdrConversation_length, hdrQuestion_length] at *
      omega

/-- C1 counterexample: a truncated assembly one character over the budget
(the claim as stated bounds the output by `maxChars`). -/
theorem buildPrompt_exceeds_maxChars :
    c1ex.maxContextChars < (buildPrompt c1ex).length
    ∧ (buildPrompt c1ex).length = 101 ∧ c1ex.maxContextChars = 100 := by
  refine ⟨?_, ?_, rfl⟩ <;> decide

/-- Witness for the amended C1 at the counterexample input. -/
theorem buildPrompt_truncates_only_passages_witness :
    (∃ t, buildPrompt c1ex
        = c1ex.system ++ sep2 ++ hdrPassages ++ sep2 ++ t ++ sep2 ++ hdrConversation
          ++ sep2 ++ convoOf c1ex.recentMessages ++ sep2 ++ hdrQuestion ++ sep2
          ++ c1ex.question)
    ∧ (buildPrompt c1ex).length
        ≤ max c1ex.maxContextChars
            (c1ex.system.length + (convoOf c1ex.recentMessages).length
              + c1ex.question.length + 74) + 1 :=
  buildPrompt_truncates_only_passages c1ex (by decide) (by decide) (by decide) (by decide)

/-- C7 (amended): with no passages and no history, the prompt is exactly
preamble + question *provided the assembly fits the budget*; `buildPrompt`
is a total function (never throws).  When the assembly exceeds the budget,
the rebuild inserts empty passage/conversation sections (see the
counterexample). -/
theorem buildPrompt_empty_inputs_only_preamble_question (p : PromptInput)
    (hh : p.hits = []) (hm : p.recentMessages = []) (hsys : p.system ≠ [])
    (hfit : p.system.length + (jsTrim p.question).length + 20 ≤ p.maxContextChars) :
    buildPrompt p = p.system ++ sep2 ++ hdrQuestion ++ sep2 ++ jsTrim p.question := by
  have hr : retrievalsOf p.hits = [] := by rw [hh]; rfl
  have hc : convoOf p.recentMessages = [] := by rw [hm]; rfl
  have hparts : (if p.system ≠ [] then [p.system] else []) ++
      (if retrievalsOf p.hits ≠ [] then [hdrPassages, retrievalsOf p.hits] else []) ++
      (if convoOf p.recentMessages ≠ []
        then [hdrConversation, convoOf p.recentMessages] else []) ++
      [hdrQuestion, jsTrim p.question]
      = [p.system, hdrQuestion, jsTrim p.question] := by
    rw [if_pos hsys, hr, hc]
    simp
  simp only [buildPrompt, hparts]
  rw [if_neg (by rw [jsJoin3_length, hdrQuestion_length]; omega)]
  exact jsJoin3_eq _ _ _

/-- C7 counterexample: with empty passages and history but a budget below
preamble + question, the output contains empty passage and conversation
sections, so it is not "only preamble + question". -/
theorem buildPrompt_empty_inputs_headers_leak :
    buildPrompt c7ex
      = ("S\n\n--- Retrieved Passages ---\n\n\n\n--- Conversation ---\n\n\n\n--- Question ---\n\nQ").data
    ∧ buildPrompt c7ex ≠ ("S\n\n--- Question ---\n\nQ").data := by
  constructor <;> decide

/-- Witness for the amended C7 at a concrete fitting input. -/
theorem buildPrompt_empty_inputs_only_preamble_question_witness :
    buildPrompt c7wex = c7wex.system ++ sep2 ++ hdrQuestion ++ sep2 ++ jsTrim c7wex.question :=
  buildPrompt_empty_inputs_only_preamble_question c7wex rfl rfl (by decide) (by decide)

/-! ### C3: getMessages returns appended messages in order -/

theorem length_takeLast (n : Nat) (l : List α) :
    (takeLast n l).length = l.length - (l.length - n) := by
  simp [takeLast]

theorem takeLast_sublist (n : Nat) (l : List α) : (takeLast n l).Sublist l :=
  List.drop_sublist _ _

theorem insertByCreatedAt_le (r : DbRow) (l : List DbRow)
    (h : ∀ x ∈ l, r.createdAt ≤ x.createdAt) : insertByCreatedAt r l = r :: l := by
  cases l with
  | nil => rfl
  | cons x xs => simp [insertByCreatedAt, h x (List.mem_cons_self x xs)]

/-- The stable model sort is the identity on rows already ordered by
`createdAt`. -/
theorem dbOrderByCreatedAt_eq_self (l : List DbRow)
    (h : l.Pairwise (fun a b => a.createdAt ≤ b.createdAt)) :
    dbOrderByCreatedAt l = l := by
  induction l with
  | nil => rfl
  | cons r t ih =>
    rw [dbOrderByCreatedAt, ih (List.Pairwise.of_cons h)]
    exact insertByCreatedAt_le r t fun x hx => List.rel_of_pairwise_cons h hx

theorem map_rowOf_roundtrip (sid : JsString) (B : List StoredMsg) :
    (B.map (rowOf sid)).map
        (fun r => ({ id := r.id, role := r.role, text := r.content,
                     ts := r.createdAt } : StoredMsg)) = B := by
  induction B with
  | nil => rfl
  | cons m t ih => simp [ih, rowOf]

/-- Effect of one `appendMessage` on the hot-tier list of `sid`. -/
theorem appendMessage_redis_effect (st : StoreState) (av : Avail) (sid : JsString)
    (m : MsgIn) :
    (appendMessage st av sid m).1.redisMsgs sid
      = if av.redis then
          takeLast MAX_MESSAGES_REDIS
            (st.redisMsgs sid ++ [(appendMessage st av sid m).2.message])
        else st.redisMsgs sid := by
  cases hr : av.redis <;> cases hp : av.prisma <;> cases hi : m.id <;>
    simp [appendMessage, hr, hp, hi, setFun]

/-- Effect of one `appendMessage` on the durable rows. -/
theorem appendMessage_db_effect (st : StoreState) (av : Avail) (sid : JsString)
    (m : MsgIn) :
    (appendMessage st av sid m).1.db
      = if av.prisma then st.db ++ [rowOf sid (appendMessage st av sid m).2.message]
        else st.db := by
  cases hr : av.redis <;> cases hp : av.prisma <;> cases hi : m.id <;>
    simp [appendMessage, hr, hp, hi, rowOf]

theorem runAppends_cons (st0 : StoreState) (sid : JsString) (c : AppendCall)
    (cs : List AppendCall) :
    runAppends st0 sid (c :: cs)
      = ((runAppends (appendMessage st0 c.av sid c.msg).1 sid cs).1,
         (appendMessage st0 c.av sid c.msg).2.message
           :: (runAppends (appendMessage st0 c.av sid c.msg).1 sid cs).2) := rfl

/-- Tier contents after a script of appends: the hot-tier list for `sid` is
a subsequence of (pre-existing cache ++ appended messages in order), and the
durable rows for `sid` extend the pre-existing ones by the rows of a
subsequence of the appended messages, in order. -/
theorem runAppends_tiers (sid : JsString) (calls : List AppendCall) :
    ∀ st0 : StoreState,
      ((runAppends st0 sid calls).1.redisMsgs sid).Sublist
          (st0.redisMsgs sid ++ (runAppends st0 sid calls).2)
      ∧ ∃ B : List StoredMsg, B.Sublist (runAppends st0 sid calls).2
          ∧ (runAppends st0 sid calls).1.db.filter (fun r => r.sessionId = sid)
            = st0.db.filter (fun r => r.sessionId = sid) ++ B.map (rowOf sid) := by
  induction calls with
  | nil =>
    intro st0
    exact ⟨by simp [runAppends], ⟨[], by simp [runAppends]⟩⟩
  | cons c cs ih =>
    intro st0
    obtain ⟨ihr, B, hBsub, hBdb⟩ := ih (appendMessage st0 c.av sid c.msg).1
    simp only [runAppends_cons]
    constructor
    · refine ihr.trans ?_
      rw [appendMessage_redis_effect]
      cases hr : c.av.redis
      · simp only [hr, Bool.false_eq_true, if_false]
        exact List.Sublist.append_left (List.sublist_cons_self _ _) _
      · simp only [hr, if_true]
        have h2 := (takeLast_sublist MAX_MESSAGES_REDIS
          (st0.redisMsgs sid ++ [(appendMessage st0 c.av sid c.msg).2.message])).append_right
          (runAppends (appendMessage st0 c.av sid c.msg).1 sid cs).2
        rw [List.append_assoc, List.singleton_append] at h2
        exact h2
    · cases hp : c.av.prisma
      · refine ⟨B, hBsub.trans (List.sublist_cons_self _ _), ?_⟩
        rw [hBdb, appendMessage_db_effect]
        simp [hp]
      · refine ⟨(appendMessage st0 c.av sid c.msg).2.message :: B, hBsub.cons₂ _, ?_⟩
        rw [hBdb, appendMessage_db_effect]
        simp [hp, List.filter_append, rowOf, List.append_assoc]

/-- C3 (amended): after any sequence of `appendMessage` calls for one
session from a fresh store — under any per-call tier availability — a
`getMessages` call returns an order-preserving subsequence of the appended
messages whichever tier serves it, with length at most `limit`, *provided*
the effective timestamps are non-decreasing in call order (true for
defaulted timestamps, and for wall-clock ones from a single caller) and
`limit ≥ 1` (a `limit` of `0` is falsy in JS and disables the bound). -/
theorem getMessages_preserves_append_order (calls : List AppendCall) (sid : JsString)
    (av : Avail) (limit : Nat)
    (hmono : (((runAppends initStore sid calls).2.map (fun m => m.ts)).Pairwise (· ≤ ·)))
    (hlim : 1 ≤ limit) :
    ((getMessages (runAppends initStore sid calls).1 av sid limit).2).Sublist
        (runAppends initStore sid calls).2
    ∧ ((getMessages (runAppends initStore sid calls).1 av sid limit).2).length ≤ limit := by
  obtain ⟨hredis, B, hBsub, hBdb⟩ := runAppends_tiers sid calls initStore
  have hr0 : ((runAppends initStore sid calls).1.redisMsgs sid).Sublist
      (runAppends initStore sid calls).2 := by
    simpa [initStore] using hredis
  have hdb0 : (runAppends initStore sid calls).1.db.filter (fun r => r.sessionId = sid)
      = B.map (rowOf sid) := by
    simpa [initStore] using hBdb
  by_cases hcase : av.redis ∧ (runAppends initStore sid calls).1.redisMsgs sid ≠ []
  · simp only [getMessages, if_pos hcase]
    by_cases h2 : limit ≠ 0 ∧
        limit < ((runAppends initStore sid calls).1.redisMsgs sid).length
    · rw [if_pos h2]
      refine ⟨(takeLast_sublist _ _).trans hr0, ?_⟩
      rw [length_takeLast]
      omega
    · rw [if_neg h2]
      refine ⟨hr0, ?_⟩
      omega
  · simp only [getMessages, if_neg hcase]
    by_cases hp : av.prisma = true
    · rw [if_pos hp]
      have hmonoB : (B.map (fun m => m.ts)).Pairwise (· ≤ ·) :=
        List.Pairwise.sublist (hBsub.map (fun m => m.ts)) hmono
      have hsort : (B.map (rowOf sid)).Pairwise (fun a b => a.createdAt ≤ b.createdAt) := by
        rw [List.pairwise_map] at hmonoB ⊢
        simpa [rowOf] using hmonoB
      have hdocs :
          (dbOrderByCreatedAt ((runAppends initStore sid calls).1.db.filter
              (fun r => r.sessionId = sid))).map
            (fun r => ({ id := r.id, role := r.role, text := r.content,
                         ts := r.createdAt } : StoredMsg)) = B := by
        rw [hdb0, dbOrderByCreatedAt_eq_self _ hsort, map_rowOf_roundtrip]
      rw [hdocs]
      by_cases h2 : limit ≠ 0 ∧ limit < B.length
      · rw [if_pos h2]
        refine ⟨(takeLast_sublist _ _).trans hBsub, ?_⟩
        show (takeLast limit B).length ≤ limit
        rw [length_takeLast]
        omega
      · rw [if_neg h2]
        refine ⟨hBsub, ?_⟩
        show B.length ≤ limit
        omega
    · rw [if_neg hp]
      exact ⟨List.nil_sublist _, by simp⟩

/-- C3 counterexample: (i) two appends with explicitly supplied, decreasing
timestamps are returned in timestamp order, not append order, by the durable
tier; (ii) `getMessages` with `limit = 0` returns more than `0` messages. -/
theorem getMessages_append_order_claim_false :
    ¬ ((getMessages (runAppends initStore c3sid c3calls).1 c3av c3sid 10).2).Sublist
        (runAppends initStore c3sid c3calls).2
    ∧ 0 < ((getMessages (runAppends initStore c3sid c3one).1 c3av c3sid 0).2).length := by
  constructor <;> decide

/-- Witness for the amended C3: both tiers up, defaulted timestamps,
`limit = 1`. -/
theorem getMessages_preserves_append_order_witness :
    ((getMessages (runAppends initStore c3sid c3wcalls).1
        { redis := true, prisma := true } c3sid 1).2).Sublist
      (runAppends initStore c3sid c3wcalls).2
    ∧ ((getMessages (runAppends initStore c3sid c3wcalls).1
        { redis := true, prisma := true } c3sid 1).2).length ≤ 1 :=
  getMessages_preserves_append_order c3wcalls c3sid { redis := true, prisma := true } 1
    (by decide) (by decide)
